import Mathlib

/-!
Shallow embedding of the TA++ header-only library (src/ta++.h and
src/ta++-plot.h) and proofs of its specified properties.

Modelling conventions:
* `Time` (a boost gregorian date) is embedded as an integer day code
  such as 20080101; only its linear order is used by the code under study.
* `TA_Real` (a C `double`) is embedded as an exact rational; the code under
  study only copies, compares, adds and emits these values.
* The external TA-lib handle is opaque to the wrapper; values it reports
  (the lookback count, the declared optional-parameter table, the declared
  output list, the `outBegIdx`/`outNbElement` results of `TA_CallFunc`) are
  universally quantified parameters of the embedded operations.
* `panic` / failed `verify` terminate the process; fallible embedded
  operations return `Except String _` where `Except.error` stands for that
  unconditional process termination (no recoverable value reaches a caller).
-/

namespace Tapp

/-- Calendar time of a candle stick, embedded as an integer day code. -/
abbrev Time := Int

/-- `TA_Real` (a C `double`), embedded as an exact rational. -/
abbrev TAReal := Rat

/-- `TA_Integer`. -/
abbrev TAInteger := Int

/-- The candle stick type (`struct Candle` of ta++.h). The C++ field `open`
is called `open_` because `open` is a Lean keyword. -/
structure Candle where
  open_ : TAReal
  high : TAReal
  low : TAReal
  close : TAReal
  volume : TAReal
  openInterest : TAReal
  time : Time
  deriving DecidableEq

/-- `Candle::operator+=` of ta++.h: merge a subsequent candle into this one,
updating high, low, close and volume in place. -/
def Candle.addAssign (a b : Candle) : Candle :=
  { a with
    high := if b.high > a.high then b.high else a.high
    low := if b.low < a.low then b.low else a.low
    close := b.close
    volume := a.volume + b.volume }

/-- `Series<T>` of ta++.h: an STL vector combined with the `BaseSeries`
properties `first` (offset of the first meaningful entry) and `flags`
(visualization flags). A default-constructed series has `first = 0`,
`flags = 0` and no data. -/
structure Series (α : Type) where
  data : List α := []
  first : TAInteger := 0
  flags : TAInteger := 0
  deriving DecidableEq

/-- `size()` of a series. -/
def Series.size (s : Series α) : Nat := s.data.length

/-- `BaseSeries::setFirst`. -/
def Series.setFirst (s : Series α) (f : TAInteger) : Series α := { s with first := f }

/-- `BaseSeries::setFlags`. -/
def Series.setFlags (s : Series α) (f : TAInteger) : Series α := { s with flags := f }

/-- `std::vector::push_back` on a series. -/
def Series.push (s : Series α) (x : α) : Series α := { s with data := s.data ++ [x] }

/-- `std::vector::resize(n)`: truncate to `n` elements or pad with
default-constructed elements up to length `n`. -/
def Series.resize (s : Series α) (n : Nat) (dflt : α) : Series α :=
  { s with data := s.data.take n ++ List.replicate (n - s.data.length) dflt }

/-- The invariant `first <= size()` of a series (spec section 3). -/
def Series.firstInvariant (s : Series α) : Prop := s.first ≤ (s.data.length : Int)

/-- `Candles` of ta++.h: a bundle of seven member series plus its own
`BaseSeries` properties. A default-constructed bundle is empty. -/
structure Candles where
  open_ : Series TAReal := {}
  high : Series TAReal := {}
  low : Series TAReal := {}
  close : Series TAReal := {}
  volume : Series TAReal := {}
  openInterest : Series TAReal := {}
  time : Series Time := {}
  first : TAInteger := 0
  flags : TAInteger := 0
  deriving DecidableEq

/-- `Candles::size()`: the size of the `open` member series. -/
def Candles.size (c : Candles) : Nat := c.open_.size

/-- The body of the reading loop of `Candles::LoadFromFile`: push one parsed
record onto all seven member series. -/
def Candles.pushCandle (c : Candles) (r : Candle) : Candles :=
  { c with
    time := c.time.push r.time
    open_ := c.open_.push r.open_
    high := c.high.push r.high
    low := c.low.push r.low
    close := c.close.push r.close
    volume := c.volume.push r.volume
    openInterest := c.openInterest.push r.openInterest }

/-- The reading loop of `Candles::LoadFromFile` (ta++.h lines 285-296), with
the file contents abstracted as the list of successfully parsed records, in
file order: skip a record dated before `b`, stop at the first considered
record dated at or after `e`, append every other record. -/
def loadLoop (b e : Time) : List Candle → Candles → Candles
  | [], c => c
  | r :: rest, c =>
    if r.time < b then loadLoop b e rest c
    else if e ≤ r.time then c
    else loadLoop b e rest (c.pushCandle r)

/-- `Candles::LoadFromFile(path, begin, end)` with the parsed rows of the
file at `path` abstracted as `recs`. -/
def Candles.loadFromFile (c : Candles) (recs : List Candle) (b e : Time) : Candles :=
  loadLoop b e recs c

/-- The list of records the loop appends, in order (the pure content of
`loadLoop`). -/
def loadList (b e : Time) : List Candle → List Candle
  | [] => []
  | r :: rest =>
    if r.time < b then loadList b e rest
    else if e ≤ r.time then []
    else r :: loadList b e rest

/-- `Candles::setFirst`: set the bundle's own `first` and fan the value out
to all seven member series. -/
def Candles.setFirst (c : Candles) (f : TAInteger) : Candles :=
  { c with
    first := f
    open_ := c.open_.setFirst f
    high := c.high.setFirst f
    low := c.low.setFirst f
    close := c.close.setFirst f
    volume := c.volume.setFirst f
    openInterest := c.openInterest.setFirst f
    time := c.time.setFirst f }

/-- `Candles::setFlags`: set the bundle's own `flags` and fan the value out
to all seven member series. -/
def Candles.setFlags (c : Candles) (f : TAInteger) : Candles :=
  { c with
    flags := f
    open_ := c.open_.setFlags f
    high := c.high.setFlags f
    low := c.low.setFlags f
    close := c.close.setFlags f
    volume := c.volume.setFlags f
    openInterest := c.openInterest.setFlags f
    time := c.time.setFlags f }

/-- The seven member series of a bundle have equal length. -/
def Candles.aligned (c : Candles) : Prop :=
  c.high.size = c.open_.size ∧ c.low.size = c.open_.size ∧
  c.close.size = c.open_.size ∧ c.volume.size = c.open_.size ∧
  c.openInterest.size = c.open_.size ∧ c.time.size = c.open_.size

/-- The seven member series carry the same `first` and `flags` as the
bundle itself. -/
def Candles.metaSync (c : Candles) : Prop :=
  (c.open_.first = c.first ∧ c.high.first = c.first ∧ c.low.first = c.first ∧
   c.close.first = c.first ∧ c.volume.first = c.first ∧
   c.openInterest.first = c.first ∧ c.time.first = c.first) ∧
  (c.open_.flags = c.flags ∧ c.high.flags = c.flags ∧ c.low.flags = c.flags ∧
   c.close.flags = c.flags ∧ c.volume.flags = c.flags ∧
   c.openInterest.flags = c.flags ∧ c.time.flags = c.flags)

/-- An operation on a `Candles` bundle through its own interface. -/
inductive CandlesOp where
  | load (recs : List Candle) (b e : Time)
  | setFirst (f : TAInteger)
  | setFlags (f : TAInteger)

/-- Apply one interface operation to a bundle. -/
def Candles.applyOp (c : Candles) : CandlesOp → Candles
  | .load recs b e => c.loadFromFile recs b e
  | .setFirst f => c.setFirst f
  | .setFlags f => c.setFlags f

/-- Apply a sequence of interface operations to a bundle. -/
def Candles.applyOps (c : Candles) (ops : List CandlesOp) : Candles :=
  ops.foldl Candles.applyOp c

/-- The three example rows of spec section 8, dated 2008-01-01/02/03. -/
def exampleRows : List Candle :=
  [⟨1, 1, 1, 1, 1, 1, 20080101⟩, ⟨2, 2, 2, 2, 2, 2, 20080102⟩,
   ⟨3, 3, 3, 3, 3, 3, 20080103⟩]

/-- `TA_OutputParameterType`: each declared output of an external handle is
a real series or an integer series. -/
inductive OutputType where
  | real
  | integer
  deriving DecidableEq

/-- `TA::Output` of ta++.h: one declared output of an indicator. Only the
series matching `type` is valid. -/
structure Output where
  type : OutputType
  name : String
  real : Series TAReal := {}
  integer : Series TAInteger := {}
  deriving DecidableEq

/-- The `first` of the output series selected by the output's `type`. -/
def Output.activeFirst (o : Output) : TAInteger :=
  match o.type with
  | .real => o.real.first
  | .integer => o.integer.first

/-- The length of the output series selected by the output's `type`. -/
def Output.activeSize (o : Output) : Nat :=
  match o.type with
  | .real => o.real.size
  | .integer => o.integer.size

/-- The mutable state of a `TA` object that the input/update steps touch:
the declared outputs (as initialized by `TA::Init` from the external
handle's metadata) and the `inputFirst`/`inputSize` fields. -/
structure TAState where
  outputs : List Output
  inputFirst : TAInteger := 0
  inputSize : Nat := 0
  deriving DecidableEq

/-- `TA::setInput(input)` (single input, ta++.h lines 499-505): record the
input's `first` and `size()`; the data pointer itself is bound externally. -/
def TAState.setInput (st : TAState) (first : TAInteger) (size : Nat) : TAState :=
  { st with inputFirst := first, inputSize := size }

/-- `TA::setInput(input1, input2)` (two inputs, ta++.h lines 507-515):
`inputFirst` is the max of the two `first` values and `inputSize` the min of
the two sizes. -/
def TAState.setInput2 (st : TAState) (first1 : TAInteger) (size1 : Nat)
    (first2 : TAInteger) (size2 : Nat) : TAState :=
  { st with inputFirst := max first1 first2, inputSize := min size1 size2 }

/-- The per-output body of `TA::update` (ta++.h lines 539-554): set the
active series' `first` to `outputFirst` and resize it to `n` elements. -/
def Output.setupOutput (o : Output) (outputFirst : TAInteger) (n : Nat) : Output :=
  match o.type with
  | .real => { o with real := (o.real.setFirst outputFirst).resize n 0 }
  | .integer => { o with integer := (o.integer.setFirst outputFirst).resize n 0 }

/-- `TA::update` (ta++.h lines 534-559) up to the external call: with
`lookback` the value reported by `TA_GetLookback`, set every output's
`first` to `inputFirst + lookback` and size every output buffer to
`inputSize`. `TA_CallFunc` then writes values through raw pointers, which
changes neither the buffers' lengths nor their `first` fields. -/
def TAState.update (st : TAState) (lookback : TAInteger) : TAState :=
  { st with
    outputs := st.outputs.map
      (fun o => o.setupOutput (st.inputFirst + lookback) st.inputSize) }

/-- The two `verify` postconditions at the end of `TA::update` (ta++.h lines
557-558), which hold exactly when the invocation completes without
aborting: `outBegIdx == lookback` and `outNbElement == inputSize -
outputFirst`. -/
def TAState.updateCompletes (st : TAState) (lookback outBegIdx outNbElement : TAInteger) : Prop :=
  outBegIdx = lookback ∧ outNbElement = (st.inputSize : Int) - (st.inputFirst + lookback)

/-- `enum TA::OptionType { REAL, INTEGER }`: the runtime type tag of a
stored option value. -/
inductive OptionValueType where
  | integer
  | real
  deriving DecidableEq

/-- `TA::Option` of ta++.h: a named option with a runtime type tag; only
the field matching `type` is meaningful. -/
structure TAOption where
  name : String
  type : OptionValueType
  integer : TAInteger := 0
  real : TAReal := 0
  deriving DecidableEq

/-- `TA::Option::getInteger`: `verify(type == INTEGER)` aborts the process
on mismatch, modelled as `Except.error`. -/
def TAOption.getInteger (o : TAOption) : Except String TAInteger :=
  match o.type with
  | .integer => .ok o.integer
  | .real => .error "verify failed: type == INTEGER"

/-- `TA::Option::getReal`: `verify(type == REAL)` aborts the process on
mismatch, modelled as `Except.error`. -/
def TAOption.getReal (o : TAOption) : Except String TAReal :=
  match o.type with
  | .real => .ok o.real
  | .integer => .error "verify failed: type == REAL"

/-- `TA_OptInputParameterType`: the four declared kinds of an optional
parameter of an external handle. -/
inductive OptInType where
  | realRange
  | realList
  | integerRange
  | integerList
  deriving DecidableEq

/-- `TA::setOption` (ta++.h lines 518-532). `optionMap` is the external
handle's declared optional-parameter table (name to declared kind), built by
`TA::Init`. An unknown name fails `verify(it != optionMap.end())`; a
declared real kind reads the stored option with `getReal` and a declared
integer kind with `getInteger`, each of which aborts on a type-tag
mismatch. `Except.error` stands for the process termination performed by
`panic`; no recoverable error value is ever returned. -/
def setOption (optionMap : List (String × OptInType)) (opt : TAOption) :
    Except String Unit :=
  match optionMap.lookup opt.name with
  | none => .error "verify failed: it != optionMap.end"
  | some t =>
    match t with
    | .realRange | .realList =>
      match opt.getReal with
      | .ok _ => .ok ()
      | .error msg => .error msg
    | .integerRange | .integerList =>
      match opt.getInteger with
      | .ok _ => .ok ()
      | .error msg => .error msg

/-- The per-output label computation of `Pane::draw(indicator, name)`
(ta++-plot.h lines 55-81): `numOutputs` is `indicator.getOutputs().size()`,
`indicatorName` is `indicator.getName()`, `override` is the `name`
parameter and `outputName` is `output.name`. -/
def fullDrawName (numOutputs : Nat) (indicatorName override outputName : String) : String :=
  if 1 < numOutputs then
    if override = "" then outputName
    else override ++ ":" ++ outputName
  else
    if override = "" then indicatorName
    else override

/-- The labels of the draw calls issued by `Pane::draw(indicator, name)`,
one per output, in output order. -/
def drawLabels (indicatorName : String) (outputs : List Output) (override : String) :
    List String :=
  outputs.map (fun o => fullDrawName outputs.length indicatorName override o.name)

/-- The per-pane vertical size ratio loop of `GnuplotChart::render`
(ta++-plot.h lines 328-337): `ratio` is `1.0 / (2 + panes.size())` and the
first pane's ratio is tripled. Embedded over exact rationals. -/
def paneRatiosAux (ratio : Rat) : Nat → Bool → List Rat
  | 0, _ => []
  | n + 1, isFirst => (if isFirst then ratio * 3 else ratio) :: paneRatiosAux ratio n false

/-- The list of vertical size ratios `GnuplotChart::render` assigns to its
`n` panes, in pane order. -/
def renderRatios (n : Nat) : List Rat :=
  paneRatiosAux (1 / (2 + (n : Rat))) n true

/-- One line of a Gnuplot inline data block: a data row for source index
`i` with the emitted column values (after the index column), or the
sentinel line `e` that terminates a block. -/
inductive DataLine where
  | row (i : Nat) (vals : List TAReal)
  | sentinel
  deriving DecidableEq

/-- `open[i]` of a bundle, as read by the plotting code. -/
def Candles.openAt (c : Candles) (i : Nat) : TAReal := c.open_.data.getD i 0

/-- `high[i]` of a bundle, as read by the plotting code. -/
def Candles.highAt (c : Candles) (i : Nat) : TAReal := c.high.data.getD i 0

/-- `low[i]` of a bundle, as read by the plotting code. -/
def Candles.lowAt (c : Candles) (i : Nat) : TAReal := c.low.data.getD i 0

/-- `close[i]` of a bundle, as read by the plotting code. -/
def Candles.closeAt (c : Candles) (i : Nat) : TAReal := c.close.data.getD i 0

/-- `volume[i]` of a bundle, as read by the plotting code. -/
def Candles.volumeAt (c : Candles) (i : Nat) : TAReal := c.volume.data.getD i 0

/-- The indices the first (green) data block of `GnuplotPane::drawCandles`
and `GnuplotPane::drawVolumes` keeps: the loop skips index `i` when
`open[i] > close[i]`. -/
def greenIndices (c : Candles) : List Nat :=
  (List.range c.size).filter (fun i => !decide (c.closeAt i < c.openAt i))

/-- The indices the second (red) data block keeps: the loop skips index `i`
when `open[i] <= close[i]`. -/
def redIndices (c : Candles) : List Nat :=
  (List.range c.size).filter (fun i => decide (c.closeAt i < c.openAt i))

/-- The data block lines emitted by `GnuplotPane::drawCandles`
(ta++-plot.h lines 194-221): green rows, a sentinel, red rows, a sentinel;
each row carries `open high low close`. -/
def drawCandlesData (c : Candles) : List DataLine :=
  (greenIndices c).map
      (fun i => DataLine.row i [c.openAt i, c.highAt i, c.lowAt i, c.closeAt i])
    ++ [DataLine.sentinel]
    ++ (redIndices c).map
      (fun i => DataLine.row i [c.openAt i, c.highAt i, c.lowAt i, c.closeAt i])
    ++ [DataLine.sentinel]

/-- The data block lines emitted by `GnuplotPane::drawVolumes`
(ta++-plot.h lines 222-239): green rows, a sentinel, red rows, a sentinel;
each row carries the volume. -/
def drawVolumesData (c : Candles) : List DataLine :=
  (greenIndices c).map (fun i => DataLine.row i [c.volumeAt i])
    ++ [DataLine.sentinel]
    ++ (redIndices c).map (fun i => DataLine.row i [c.volumeAt i])
    ++ [DataLine.sentinel]

/-- The source indices of the data rows of a line list, in emission order. -/
def rowIndices : List DataLine → List Nat
  | [] => []
  | DataLine.row i _ :: rest => i :: rowIndices rest
  | DataLine.sentinel :: rest => rowIndices rest

/-- A concrete one-row bundle used to instantiate the plotting theorems. -/
def wCandles : Candles :=
  { open_ := { data := [1] }, high := { data := [4] }, low := { data := [0] },
    close := { data := [2] }, volume := { data := [7] },
    openInterest := { data := [0] }, time := { data := [20080101] } }

theorem paneRatiosAux_false (r : Rat) : ∀ n : Nat, paneRatiosAux r n false = List.replicate n r := by
  intro n
  induction n with
  | zero => rfl
  | succ m ih => simp [paneRatiosAux, ih, List.replicate_succ]

theorem prepend_colon_cancel (p a b : String) (h : p ++ ":" ++ a = p ++ ":" ++ b) : a = b := by
  have hd := congrArg String.data h
  simp only [String.data_append] at hd
  exact String.ext (List.append_cancel_left hd)

theorem loadLoop_eq_foldl (b e : Time) :
    ∀ (recs : List Candle) (c : Candles),
      loadLoop b e recs c = (loadList b e recs).foldl Candles.pushCandle c := by
  intro recs
  induction recs with
  | nil => intro c; rfl
  | cons r rest ih =>
    intro c
    by_cases h1 : r.time < b
    · simp [loadLoop, loadList, h1, ih]
    · by_cases h2 : e ≤ r.time
      · simp [loadLoop, loadList, h1, h2]
      · simp [loadLoop, loadList, h1, h2, ih]

theorem loadLoop_takeWhile (b e : Time) (hbe : b ≤ e) :
    ∀ (recs : List Candle) (c : Candles),
      loadLoop b e recs c =
        loadLoop b e (recs.takeWhile (fun r => decide (r.time < e))) c := by
  intro recs
  induction recs with
  | nil => intro c; rfl
  | cons r rest ih =>
    intro c
    by_cases h1 : r.time < b
    · have h2 : r.time < e := lt_of_lt_of_le h1 hbe
      simp [loadLoop, List.takeWhile_cons, h1, h2, ih]
    · by_cases h2 : e ≤ r.time
      · have h3 : ¬ r.time < e := not_lt.mpr h2
        simp [loadLoop, List.takeWhile_cons, h1, h2, h3]
      · have h3 : r.time < e := not_le.mp h2
        simp [loadLoop, List.takeWhile_cons, h1, h2, h3, ih]

theorem loadList_eq_takeWhile_filter (b e : Time) (hbe : b ≤ e) :
    ∀ recs : List Candle,
      loadList b e recs =
        (recs.takeWhile (fun r => decide (r.time < e))).filter
          (fun r => decide (b ≤ r.time)) := by
  intro recs
  induction recs with
  | nil => rfl
  | cons r rest ih =>
    by_cases h1 : r.time < b
    · have h2 : r.time < e := lt_of_lt_of_le h1 hbe
      have h3 : ¬ b ≤ r.time := not_le.mpr h1
      simp [loadList, List.takeWhile_cons, List.filter_cons, h1, h2, h3, ih]
    · by_cases h2 : e ≤ r.time
      · have h3 : ¬ r.time < e := not_lt.mpr h2
        simp [loadList, List.takeWhile_cons, h1, h2, h3]
      · have h3 : r.time < e := not_le.mp h2
        have h4 : b ≤ r.time := not_lt.mp h1
        simp [loadList, List.takeWhile_cons, List.filter_cons, h1, h2, h3, h4, ih]

theorem sorted_takeWhile_eq_filter (e : Time) :
    ∀ recs : List Candle, recs.Pairwise (fun r s => r.time ≤ s.time) →
      recs.takeWhile (fun r => decide (r.time < e)) =
        recs.filter (fun r => decide (r.time < e)) := by
  intro recs
  induction recs with
  | nil => intro _; rfl
  | cons r rest ih =>
    intro h
    rcases List.pairwise_cons.mp h with ⟨hr, hrest⟩
    by_cases hlt : r.time < e
    · simp [List.takeWhile_cons, List.filter_cons, hlt, ih hrest]
    · have hall : ∀ s ∈ rest, ¬ s.time < e := fun s hs hcon =>
        hlt (lt_of_le_of_lt (hr s hs) hcon)
      simp only [List.takeWhile_cons, List.filter_cons]
      rw [if_neg (by simpa using hlt), if_neg (by simpa using hlt)]
      exact (List.filter_eq_nil_iff.mpr (by simpa using hall)).symm

/-- C8: after `a += b`, `a.high` is the max of the old high and `b.high`,
`a.low` the min of the old low and `b.low`, `a.close` equals `b.close`,
`a.volume` equals the old volume plus `b.volume`, and `a.open`,
`a.openInterest` and `a.time` are unchanged. -/
theorem candle_addAssign_spec (a b : Candle) :
    (a.addAssign b).high = max a.high b.high ∧
    (a.addAssign b).low = min a.low b.low ∧
    (a.addAssign b).close = b.close ∧
    (a.addAssign b).volume = a.volume + b.volume ∧
    (a.addAssign b).open_ = a.open_ ∧
    (a.addAssign b).openInterest = a.openInterest ∧
    (a.addAssign b).time = a.time := by
  refine ⟨?_, ?_, rfl, rfl, rfl, rfl, rfl⟩
  · show (if b.high > a.high then b.high else a.high) = max a.high b.high
    rcases le_or_lt b.high a.high with h | h
    · rw [if_neg (not_lt.mpr h), max_eq_left h]
    · rw [if_pos h, max_eq_right h.le]
  · show (if b.low < a.low then b.low else a.low) = min a.low b.low
    rcases le_or_lt a.low b.low with h | h
    · rw [if_neg (not_lt.mpr h), min_eq_left h]
    · rw [if_pos h, min_eq_right h.le]

/-- C6: for a chart with `n >= 1` panes, `GnuplotChart::render` assigns
pane 0 the vertical size ratio `3 / (n + 2)`, every other pane the ratio
`1 / (n + 2)`, and the ratios sum to 1. -/
theorem render_pane_ratios (n : Nat) (h : 1 ≤ n) :
    renderRatios n =
      3 / ((n : Rat) + 2) :: List.replicate (n - 1) (1 / ((n : Rat) + 2)) ∧
    (renderRatios n).sum = 1 := by
  obtain ⟨m, rfl⟩ := Nat.exists_eq_add_of_le h
  have hcast : ((1 + m : Nat) : Rat) = 1 + (m : Rat) := by push_cast; ring
  have hne : (2 : Rat) + ((1 + m : Nat) : Rat) ≠ 0 := by
    rw [hcast]; positivity
  have hlist : renderRatios (1 + m) =
      (1 / (2 + ((1 + m : Nat) : Rat))) * 3 ::
        List.replicate m (1 / (2 + ((1 + m : Nat) : Rat))) := by
    show paneRatiosAux _ (1 + m) true = _
    rw [Nat.add_comm 1 m]
    simp [paneRatiosAux, paneRatiosAux_false]
  constructor
  · rw [hlist]
    have h1 : (1 / (2 + ((1 + m : Nat) : Rat))) * 3 = 3 / (((1 + m : Nat) : Rat) + 2) := by
      rw [hcast]; ring
    have h2 : (1 / (2 + ((1 + m : Nat) : Rat))) = 1 / (((1 + m : Nat) : Rat) + 2) := by
      rw [hcast]; ring
    rw [h1, h2, Nat.add_sub_cancel_left]
  · rw [hlist]
    rw [List.sum_cons, List.sum_replicate, nsmul_eq_mul, hcast]
    have hne' : (3 : Rat) + (m : Rat) ≠ 0 := by positivity
    field_simp
    ring

/-- C7: `TA::setOption` terminates the process (modelled as `Except.error`)
when the option's name is not in the external handle's declared
optional-parameter table, and likewise when the stored value type of the
option (integer vs real) differs from the declared parameter kind; no
recoverable error value is returned to the caller in either case. -/
theorem setOption_fatal (m : List (String × OptInType)) (opt : TAOption) :
    (m.lookup opt.name = none →
      setOption m opt = .error "verify failed: it != optionMap.end") ∧
    (∀ t, m.lookup opt.name = some t → (t = .realRange ∨ t = .realList) →
      opt.type = .integer →
      setOption m opt = .error "verify failed: type == REAL") ∧
    (∀ t, m.lookup opt.name = some t → (t = .integerRange ∨ t = .integerList) →
      opt.type = .real →
      setOption m opt = .error "verify failed: type == INTEGER") := by
  refine ⟨?_, ?_, ?_⟩
  · intro h
    simp [setOption, h]
  · intro t ht hkind htype
    rcases hkind with rfl | rfl <;>
      simp [setOption, ht, TAOption.getReal, htype]
  · intro t ht hkind htype
    rcases hkind with rfl | rfl <;>
      simp [setOption, ht, TAOption.getInteger, htype]

/-- Witness for C7 at a concrete table and options. -/
theorem setOption_fatal_witness :
    ([("optInTimePeriod", OptInType.realRange)].lookup "bogus" = none) ∧
    setOption [("optInTimePeriod", OptInType.realRange)] ⟨"bogus", .integer, 5, 0⟩ =
      .error "verify failed: it != optionMap.end" ∧
    setOption [("optInTimePeriod", OptInType.realRange)] ⟨"optInTimePeriod", .integer, 5, 0⟩ =
      .error "verify failed: type == REAL" ∧
    setOption [("optInTimePeriod", OptInType.integerRange)] ⟨"optInTimePeriod", .real, 0, 5⟩ =
      .error "verify failed: type == INTEGER" :=
  ⟨by decide,
   (setOption_fatal [("optInTimePeriod", OptInType.realRange)]
      ⟨"bogus", .integer, 5, 0⟩).1 (by decide),
   (setOption_fatal [("optInTimePeriod", OptInType.realRange)]
      ⟨"optInTimePeriod", .integer, 5, 0⟩).2.1 .realRange (by decide) (Or.inl rfl) rfl,
   (setOption_fatal [("optInTimePeriod", OptInType.integerRange)]
      ⟨"optInTimePeriod", .real, 0, 5⟩).2.2 .integerRange (by decide) (Or.inl rfl) rfl⟩

/-- C3: with a chronologically ordered record list and `begin < end`,
`Candles::LoadFromFile` appends exactly the records with
`begin <= time < end`, in file order; it stops scanning at the first record
whose time reaches `end` (processing only the prefix of records dated
before `end` gives the same result); the three example rows dated
2008-01-01/02/03 loaded with begin 2008-01-02 and end 2008-01-04 yield
exactly the last two rows, and the same file loaded with end 2008-01-01
yields zero rows. -/
theorem loadFromFile_window (recs : List Candle) (b e : Time)
    (hsorted : recs.Pairwise (fun r s => r.time ≤ s.time)) (hbe : b < e) :
    Candles.loadFromFile {} recs b e =
      (recs.filter (fun r => decide (b ≤ r.time) && decide (r.time < e))).foldl
        Candles.pushCandle {} ∧
    Candles.loadFromFile {} recs b e =
      Candles.loadFromFile {} (recs.takeWhile (fun r => decide (r.time < e))) b e ∧
    Candles.loadFromFile {} exampleRows 20080102 20080104 =
      (exampleRows.drop 1).foldl Candles.pushCandle {} ∧
    Candles.loadFromFile {} exampleRows 20080102 20080101 = {} := by
  refine ⟨?_, ?_, by decide, by decide⟩
  · show loadLoop b e recs {} = _
    rw [loadLoop_eq_foldl, loadList_eq_takeWhile_filter b e hbe.le,
        sorted_takeWhile_eq_filter e recs hsorted, List.filter_filter]
  · exact loadLoop_takeWhile b e hbe.le recs {}

/-- Witness for C3 at the example rows. -/
theorem loadFromFile_window_witness :
    exampleRows.Pairwise (fun r s => r.time ≤ s.time) ∧ (20080102 : Time) < 20080104 ∧
    (Candles.loadFromFile {} exampleRows 20080102 20080104 =
      (exampleRows.filter
        (fun r => decide ((20080102 : Time) ≤ r.time) && decide (r.time < (20080104 : Time)))).foldl
        Candles.pushCandle {} ∧
    Candles.loadFromFile {} exampleRows 20080102 20080104 =
      Candles.loadFromFile {}
        (exampleRows.takeWhile (fun r => decide (r.time < (20080104 : Time)))) 20080102 20080104 ∧
    Candles.loadFromFile {} exampleRows 20080102 20080104 =
      (exampleRows.drop 1).foldl Candles.pushCandle {} ∧
    Candles.loadFromFile {} exampleRows 20080102 20080101 = {}) :=
  ⟨by decide, by decide,
   loadFromFile_window exampleRows 20080102 20080104 (by decide) (by decide)⟩

theorem pushCandle_aligned (c : Candles) (r : Candle) (h : c.aligned) :
    (c.pushCandle r).aligned := by
  obtain ⟨h1, h2, h3, h4, h5, h6⟩ := h
  simp only [Candles.pushCandle, Candles.aligned, Series.push, Series.size,
    List.length_append, List.length_singleton] at *
  omega

theorem pushCandle_metaSync (c : Candles) (r : Candle) (h : c.metaSync) :
    (c.pushCandle r).metaSync := by
  simpa only [Candles.pushCandle, Candles.metaSync, Series.push] using h

theorem loadLoop_inv (b e : Time) :
    ∀ (recs : List Candle) (c : Candles), c.aligned ∧ c.metaSync →
      (loadLoop b e recs c).aligned ∧ (loadLoop b e recs c).metaSync := by
  intro recs
  induction recs with
  | nil => intro c h; exact h
  | cons r rest ih =>
    intro c h
    by_cases h1 : r.time < b
    · simpa only [loadLoop, if_pos h1] using ih c h
    · by_cases h2 : e ≤ r.time
      · simpa only [loadLoop, if_neg h1, if_pos h2] using h
      · simpa only [loadLoop, if_neg h1, if_neg h2] using
          ih _ ⟨pushCandle_aligned c r h.1, pushCandle_metaSync c r h.2⟩

theorem loadLoop_bundleFirst (b e : Time) :
    ∀ (recs : List Candle) (c : Candles), (loadLoop b e recs c).first = c.first := by
  intro recs
  induction recs with
  | nil => intro c; rfl
  | cons r rest ih =>
    intro c
    by_cases h1 : r.time < b
    · simpa only [loadLoop, if_pos h1] using ih c
    · by_cases h2 : e ≤ r.time
      · simp only [loadLoop, if_neg h1, if_pos h2]
      · simpa only [loadLoop, if_neg h1, if_neg h2] using ih (c.pushCandle r)

theorem setFirst_inv (c : Candles) (f : TAInteger) (h : c.aligned ∧ c.metaSync) :
    (c.setFirst f).aligned ∧ (c.setFirst f).metaSync := by
  obtain ⟨ha, hm⟩ := h
  constructor
  · simpa only [Candles.setFirst, Candles.aligned, Series.setFirst, Series.size] using ha
  · exact ⟨⟨rfl, rfl, rfl, rfl, rfl, rfl, rfl⟩, hm.2⟩

theorem setFlags_inv (c : Candles) (f : TAInteger) (h : c.aligned ∧ c.metaSync) :
    (c.setFlags f).aligned ∧ (c.setFlags f).metaSync := by
  obtain ⟨ha, hm⟩ := h
  constructor
  · simpa only [Candles.setFlags, Candles.aligned, Series.setFlags, Series.size] using ha
  · exact ⟨hm.1, ⟨rfl, rfl, rfl, rfl, rfl, rfl, rfl⟩⟩

theorem applyOp_inv (c : Candles) (op : CandlesOp) (h : c.aligned ∧ c.metaSync) :
    (c.applyOp op).aligned ∧ (c.applyOp op).metaSync := by
  cases op with
  | load recs b e => exact loadLoop_inv b e recs c h
  | setFirst f => exact setFirst_inv c f h
  | setFlags f => exact setFlags_inv c f h

theorem applyOps_inv :
    ∀ (ops : List CandlesOp) (c : Candles), c.aligned ∧ c.metaSync →
      (c.applyOps ops).aligned ∧ (c.applyOps ops).metaSync := by
  intro ops
  induction ops with
  | nil => intro c h; exact h
  | cons op rest ih => intro c h; exact ih _ (applyOp_inv c op h)

theorem empty_candles_inv : ({} : Candles).aligned ∧ ({} : Candles).metaSync :=
  ⟨⟨rfl, rfl, rfl, rfl, rfl, rfl⟩,
   ⟨rfl, rfl, rfl, rfl, rfl, rfl, rfl⟩, ⟨rfl, rfl, rfl, rfl, rfl, rfl, rfl⟩⟩

/-- C4: through the bundle's own interface (construction, `LoadFromFile`,
`setFirst`, `setFlags`), the seven member series always have equal length,
and they and the bundle always hold the same `first` and `flags` values. -/
theorem candles_bundle_invariants (recs : List Candle) (b e : Time) (ops : List CandlesOp) :
    ((({} : Candles).loadFromFile recs b e).applyOps ops).aligned ∧
    ((({} : Candles).loadFromFile recs b e).applyOps ops).metaSync :=
  applyOps_inv ops _ (loadLoop_inv b e recs {} empty_candles_inv)

theorem setupOutput_shape (o : Output) (f : TAInteger) (n : Nat) :
    (o.setupOutput f n).activeFirst = f ∧ (o.setupOutput f n).activeSize = n := by
  cases h : o.type
  · constructor
    · simp [Output.setupOutput, h, Output.activeFirst, Series.setFirst, Series.resize]
    · simp only [Output.setupOutput, h, Output.activeSize, Series.resize, Series.size,
        Series.setFirst, List.length_append, List.length_take, List.length_replicate]
      omega
  · constructor
    · simp [Output.setupOutput, h, Output.activeFirst, Series.setFirst, Series.resize]
    · simp only [Output.setupOutput, h, Output.activeSize, Series.resize, Series.size,
        Series.setFirst, List.length_append, List.length_take, List.length_replicate]
      omega

/-- C1: for a single-input invocation that completes without aborting, each
output's active series has `first` equal to the input's `first` plus the
lookback value reported by the external handle, and length equal to the
input's length. -/
theorem ta_single_input_output_shape (outs : List Output) (f : TAInteger) (n : Nat)
    (lookback : TAInteger) (o : Output)
    (ho : o ∈ (((TAState.mk outs 0 0).setInput f n).update lookback).outputs) :
    o.activeFirst = f + lookback ∧ o.activeSize = n := by
  simp only [TAState.update, TAState.setInput, List.mem_map] at ho
  obtain ⟨o', _, rfl⟩ := ho
  exact setupOutput_shape o' _ _

/-- Witness for C1 at a one-output indicator. -/
theorem ta_single_input_output_shape_witness :
    Output.setupOutput ⟨OutputType.real, "outReal", {}, {}⟩ (2 + 3) 5 ∈
      (((TAState.mk [⟨OutputType.real, "outReal", {}, {}⟩] 0 0).setInput 2 5).update 3).outputs ∧
    ((Output.setupOutput ⟨OutputType.real, "outReal", {}, {}⟩ (2 + 3) 5).activeFirst = 2 + 3 ∧
     (Output.setupOutput ⟨OutputType.real, "outReal", {}, {}⟩ (2 + 3) 5).activeSize = 5) :=
  ⟨by decide,
   ta_single_input_output_shape [⟨OutputType.real, "outReal", {}, {}⟩] 2 5 3 _ (by decide)⟩

/-- C2: for a two-input invocation, the effective starting offset is the
max of the two inputs' `first` values, the effective length is the min of
the two inputs' sizes, every output buffer is sized to that effective
length, and each output's `first` is the effective start plus the
lookback; the tail of the longer input is simply never read (the source
emits no diagnostic). -/
theorem ta_two_input_alignment (outs : List Output) (f1 f2 : TAInteger) (n1 n2 : Nat)
    (lookback : TAInteger) (o : Output)
    (ho : o ∈ (((TAState.mk outs 0 0).setInput2 f1 n1 f2 n2).update lookback).outputs) :
    ((TAState.mk outs 0 0).setInput2 f1 n1 f2 n2).inputFirst = max f1 f2 ∧
    ((TAState.mk outs 0 0).setInput2 f1 n1 f2 n2).inputSize = min n1 n2 ∧
    o.activeFirst = max f1 f2 + lookback ∧ o.activeSize = min n1 n2 := by
  refine ⟨rfl, rfl, ?_⟩
  simp only [TAState.update, TAState.setInput2, List.mem_map] at ho
  obtain ⟨o', _, rfl⟩ := ho
  exact setupOutput_shape o' _ _

/-- Witness for C2 at a one-output indicator. -/
theorem ta_two_input_alignment_witness :
    Output.setupOutput ⟨OutputType.integer, "outInteger", {}, {}⟩ (max 1 4 + 2) (min 6 3) ∈
      (((TAState.mk [⟨OutputType.integer, "outInteger", {}, {}⟩] 0 0).setInput2 1 6 4 3).update
        2).outputs ∧
    (((TAState.mk [⟨OutputType.integer, "outInteger", {}, {}⟩] 0 0).setInput2 1 6 4 3).inputFirst =
      max 1 4 ∧
    ((TAState.mk [⟨OutputType.integer, "outInteger", {}, {}⟩] 0 0).setInput2 1 6 4 3).inputSize =
      min 6 3 ∧
    (Output.setupOutput ⟨OutputType.integer, "outInteger", {}, {}⟩ (max 1 4 + 2)
      (min 6 3)).activeFirst = max 1 4 + 2 ∧
    (Output.setupOutput ⟨OutputType.integer, "outInteger", {}, {}⟩ (max 1 4 + 2)
      (min 6 3)).activeSize = min 6 3) :=
  ⟨by decide,
   ta_two_input_alignment [⟨OutputType.integer, "outInteger", {}, {}⟩] 1 4 6 3 2 _ (by decide)⟩

/-- C5: the invariant `first <= size()` holds for a freshly constructed
series, for every member series of a bundle loaded from file, and for every
output series of a TA invocation that completes without aborting (the
external library reports a non-negative element count). -/
theorem series_first_size_invariant (recs : List Candle) (b e : Time)
    (st : TAState) (lookback outBegIdx outNbElement : TAInteger) (o : Output)
    (hdone : st.updateCompletes lookback outBegIdx outNbElement)
    (hnn : 0 ≤ outNbElement)
    (ho : o ∈ (st.update lookback).outputs) :
    Series.firstInvariant ({} : Series TAReal) ∧
    (({} : Candles).loadFromFile recs b e).open_.firstInvariant ∧
    (({} : Candles).loadFromFile recs b e).high.firstInvariant ∧
    (({} : Candles).loadFromFile recs b e).low.firstInvariant ∧
    (({} : Candles).loadFromFile recs b e).close.firstInvariant ∧
    (({} : Candles).loadFromFile recs b e).volume.firstInvariant ∧
    (({} : Candles).loadFromFile recs b e).openInterest.firstInvariant ∧
    (({} : Candles).loadFromFile recs b e).time.firstInvariant ∧
    o.activeFirst ≤ (o.activeSize : Int) := by
  have hload := loadLoop_inv b e recs {} empty_candles_inv
  have hfirstz : (loadLoop b e recs ({} : Candles)).first = 0 :=
    loadLoop_bundleFirst b e recs {}
  obtain ⟨_, ⟨hm1, hm2, hm3, hm4, hm5, hm6, hm7⟩, _⟩ := hload
  have hout : o.activeFirst ≤ (o.activeSize : Int) := by
    simp only [TAState.update, List.mem_map] at ho
    obtain ⟨o', _, rfl⟩ := ho
    obtain ⟨hf, hs⟩ := setupOutput_shape o' (st.inputFirst + lookback) st.inputSize
    rw [hf, hs]
    have hnb : outNbElement = (st.inputSize : Int) - (st.inputFirst + lookback) := hdone.2
    linarith [hnn, hnb]
  refine ⟨by simp [Series.firstInvariant], ?_, ?_, ?_, ?_, ?_, ?_, ?_, hout⟩ <;>
    simp only [Candles.loadFromFile, Series.firstInvariant]
  · rw [hm1, hfirstz]; exact Int.natCast_nonneg _
  · rw [hm2, hfirstz]; exact Int.natCast_nonneg _
  · rw [hm3, hfirstz]; exact Int.natCast_nonneg _
  · rw [hm4, hfirstz]; exact Int.natCast_nonneg _
  · rw [hm5, hfirstz]; exact Int.natCast_nonneg _
  · rw [hm6, hfirstz]; exact Int.natCast_nonneg _
  · rw [hm7, hfirstz]; exact Int.natCast_nonneg _

/-- Witness for C5 at a concrete completed invocation and the example file. -/
theorem series_first_size_invariant_witness :
    (TAState.mk [⟨OutputType.real, "outReal", {}, {}⟩] 2 5).updateCompletes 1 1 2 ∧
    (0 : TAInteger) ≤ 2 ∧
    Output.setupOutput ⟨OutputType.real, "outReal", {}, {}⟩ (2 + 1) 5 ∈
      ((TAState.mk [⟨OutputType.real, "outReal", {}, {}⟩] 2 5).update 1).outputs ∧
    (Series.firstInvariant ({} : Series TAReal) ∧
     (({} : Candles).loadFromFile exampleRows 20080102 20080104).open_.firstInvariant ∧
     (({} : Candles).loadFromFile exampleRows 20080102 20080104).high.firstInvariant ∧
     (({} : Candles).loadFromFile exampleRows 20080102 20080104).low.firstInvariant ∧
     (({} : Candles).loadFromFile exampleRows 20080102 20080104).close.firstInvariant ∧
     (({} : Candles).loadFromFile exampleRows 20080102 20080104).volume.firstInvariant ∧
     (({} : Candles).loadFromFile exampleRows 20080102 20080104).openInterest.firstInvariant ∧
     (({} : Candles).loadFromFile exampleRows 20080102 20080104).time.firstInvariant ∧
     (Output.setupOutput ⟨OutputType.real, "outReal", {}, {}⟩ (2 + 1) 5).activeFirst ≤
       ((Output.setupOutput ⟨OutputType.real, "outReal", {}, {}⟩ (2 + 1) 5).activeSize : Int)) :=
  ⟨⟨rfl, by decide⟩, by decide, by decide,
   series_first_size_invariant exampleRows 20080102 20080104
     (TAState.mk [⟨OutputType.real, "outReal", {}, {}⟩] 2 5) 1 1 2
     (Output.setupOutput ⟨OutputType.real, "outReal", {}, {}⟩ (2 + 1) 5)
     ⟨rfl, by decide⟩ (by decide) (by decide)⟩

/-- Counterexample to C9 as stated: for a single-output indicator with no
override, the label is the indicator's name, not the output's own name. -/
theorem draw_label_single_output_counterexample :
    drawLabels "EMA" [⟨OutputType.real, "outReal", {}, {}⟩] "" = ["EMA"] ∧
    drawLabels "EMA" [⟨OutputType.real, "outReal", {}, {}⟩] "" ≠ ["outReal"] := by
  exact ⟨rfl, by decide⟩

/-- C9 (amended): `Pane::draw(indicator, name)` issues one draw call per
output; for a multi-output indicator the label is the output's own name
when no override is given and `override + ':' + output name` otherwise; for
a single-output indicator the label is the indicator's name when no
override is given and the override otherwise; for a multi-output indicator
whose declared output names are pairwise distinct, the labels are pairwise
distinct. -/
theorem drawLabels_spec (ind ov : String) (outs : List Output) :
    (drawLabels ind outs ov).length = outs.length ∧
    (1 < outs.length → ov = "" →
      drawLabels ind outs ov = outs.map (fun o => o.name)) ∧
    (1 < outs.length → ¬ ov = "" →
      drawLabels ind outs ov = outs.map (fun o => ov ++ ":" ++ o.name)) ∧
    (¬ 1 < outs.length → ov = "" →
      drawLabels ind outs ov = List.replicate outs.length ind) ∧
    (¬ 1 < outs.length → ¬ ov = "" →
      drawLabels ind outs ov = List.replicate outs.length ov) ∧
    (1 < outs.length → (outs.map (fun o => o.name)).Pairwise (fun a b => a ≠ b) →
      (drawLabels ind outs ov).Pairwise (fun a b => a ≠ b)) := by
  refine ⟨by simp [drawLabels], ?_, ?_, ?_, ?_, ?_⟩
  · intro hlen hov
    simp [drawLabels, fullDrawName, hlen, hov]
  · intro hlen hov
    simp [drawLabels, fullDrawName, hlen, hov]
  · intro hlen hov
    simp [drawLabels, fullDrawName, hlen, hov, List.map_const']
  · intro hlen hov
    simp [drawLabels, fullDrawName, hlen, hov, List.map_const']
  · intro hlen hp
    by_cases hov : ov = ""
    · have hmap : drawLabels ind outs ov = outs.map (fun o => o.name) := by
        simp [drawLabels, fullDrawName, hlen, hov]
      rw [hmap]
      exact hp
    · have hmap : drawLabels ind outs ov =
          (outs.map (fun o => o.name)).map (fun s => ov ++ ":" ++ s) := by
        simp [drawLabels, fullDrawName, hlen, hov, List.map_map, Function.comp]
      rw [hmap]
      exact hp.map _ (fun a b hab hc => hab (prepend_colon_cancel ov a b hc))

/-- Witness for the amended C9 at a two-output indicator with an override. -/
theorem drawLabels_spec_witness :
    (1 : Nat) < 2 ∧ ¬ "x" = "" ∧
    drawLabels "MACD"
      [⟨OutputType.real, "macd", {}, {}⟩, ⟨OutputType.real, "signal", {}, {}⟩] "x" =
      (([⟨OutputType.real, "macd", {}, {}⟩, ⟨OutputType.real, "signal", {}, {}⟩] :
        List Output).map (fun o => "x" ++ ":" ++ o.name)) ∧
    ((([⟨OutputType.real, "macd", {}, {}⟩, ⟨OutputType.real, "signal", {}, {}⟩] :
      List Output).map (fun o => o.name)).Pairwise (fun a b => a ≠ b)) ∧
    (drawLabels "MACD"
      [⟨OutputType.real, "macd", {}, {}⟩, ⟨OutputType.real, "signal", {}, {}⟩] "x").Pairwise
      (fun a b => a ≠ b) :=
  ⟨by norm_num, by decide,
   (drawLabels_spec "MACD" "x"
     [⟨OutputType.real, "macd", {}, {}⟩, ⟨OutputType.real, "signal", {}, {}⟩]).2.2.1
     (by norm_num) (by decide),
   by decide,
   (drawLabels_spec "MACD" "x"
     [⟨OutputType.real, "macd", {}, {}⟩, ⟨OutputType.real, "signal", {}, {}⟩]).2.2.2.2.2
     (by norm_num) (by decide)⟩

theorem rowIndices_append :
    ∀ l1 l2 : List DataLine, rowIndices (l1 ++ l2) = rowIndices l1 ++ rowIndices l2 := by
  intro l1
  induction l1 with
  | nil => intro l2; rfl
  | cons hd tl ih => intro l2; cases hd <;> simp [rowIndices, ih]

theorem rowIndices_map_row (f : Nat → List TAReal) :
    ∀ l : List Nat, rowIndices (l.map (fun i => DataLine.row i (f i))) = l := by
  intro l
  induction l with
  | nil => rfl
  | cons hd tl ih => simp [rowIndices, ih]

theorem greenIndices_mem (c : Candles) (i : Nat) :
    i ∈ greenIndices c ↔ i < c.size ∧ ¬ c.closeAt i < c.openAt i := by
  simp [greenIndices, List.mem_filter, List.mem_range]

theorem redIndices_mem (c : Candles) (i : Nat) :
    i ∈ redIndices c ↔ i < c.size ∧ c.closeAt i < c.openAt i := by
  simp [redIndices, List.mem_filter, List.mem_range]

theorem rowIndices_drawCandlesData (c : Candles) :
    rowIndices (drawCandlesData c) = greenIndices c ++ redIndices c := by
  simp [drawCandlesData, rowIndices_append, rowIndices_map_row, rowIndices]

theorem rowIndices_drawVolumesData (c : Candles) :
    rowIndices (drawVolumesData c) = greenIndices c ++ redIndices c := by
  simp [drawVolumesData, rowIndices_append, rowIndices_map_row, rowIndices]

theorem green_red_count (c : Candles) (i : Nat) (h : i < c.size) :
    (greenIndices c ++ redIndices c).count i = 1 := by
  have ndG : (greenIndices c).Nodup := (List.nodup_range _).filter _
  have ndR : (redIndices c).Nodup := (List.nodup_range _).filter _
  rw [List.count_append]
  by_cases hcmp : c.closeAt i < c.openAt i
  · rw [List.count_eq_zero_of_not_mem
        (fun hmem => ((greenIndices_mem c i).mp hmem).2 hcmp),
      List.count_eq_one_of_mem ndR ((redIndices_mem c i).mpr ⟨h, hcmp⟩)]
  · rw [List.count_eq_one_of_mem ndG ((greenIndices_mem c i).mpr ⟨h, hcmp⟩),
      List.count_eq_zero_of_not_mem
        (fun hmem => hcmp ((redIndices_mem c i).mp hmem).2)]

/-- C10: for every index `i < size`, `GnuplotPane::drawCandles` and
`GnuplotPane::drawVolumes` emit the row for `i` exactly once across their
two data blocks, in the first (green) block iff `open[i] <= close[i]` and
in the second (red) block otherwise; within each block the indices are
strictly increasing, and each block ends with the sentinel line. -/
theorem draw_blocks_partition (c : Candles) (i : Nat) (h : i < c.size) :
    (rowIndices (drawCandlesData c)).count i = 1 ∧
    (rowIndices (drawVolumesData c)).count i = 1 ∧
    (i ∈ greenIndices c ↔ ¬ c.closeAt i < c.openAt i) ∧
    (i ∈ redIndices c ↔ c.closeAt i < c.openAt i) ∧
    List.Pairwise (fun a b => a < b) (greenIndices c) ∧
    List.Pairwise (fun a b => a < b) (redIndices c) ∧
    drawCandlesData c =
      (greenIndices c).map (fun j => DataLine.row j
        [c.openAt j, c.highAt j, c.lowAt j, c.closeAt j])
        ++ [DataLine.sentinel]
        ++ (redIndices c).map (fun j => DataLine.row j
          [c.openAt j, c.highAt j, c.lowAt j, c.closeAt j])
        ++ [DataLine.sentinel] ∧
    drawVolumesData c =
      (greenIndices c).map (fun j => DataLine.row j [c.volumeAt j])
        ++ [DataLine.sentinel]
        ++ (redIndices c).map (fun j => DataLine.row j [c.volumeAt j])
        ++ [DataLine.sentinel] := by
  refine ⟨?_, ?_, ?_, ?_, ?_, ?_, rfl, rfl⟩
  · rw [rowIndices_drawCandlesData]
    exact green_red_count c i h
  · rw [rowIndices_drawVolumesData]
    exact green_red_count c i h
  · rw [greenIndices_mem]
    exact ⟨fun hg => hg.2, fun hg => ⟨h, hg⟩⟩
  · rw [redIndices_mem]
    exact ⟨fun hr => hr.2, fun hr => ⟨h, hr⟩⟩
  · exact (List.pairwise_lt_range _).filter _
  · exact (List.pairwise_lt_range _).filter _

/-- Witness for C10 at a concrete one-row bundle. -/
theorem draw_blocks_partition_witness :
    0 < wCandles.size ∧
    ((rowIndices (drawCandlesData wCandles)).count 0 = 1 ∧
     (rowIndices (drawVolumesData wCandles)).count 0 = 1 ∧
     (0 ∈ greenIndices wCandles ↔ ¬ wCandles.closeAt 0 < wCandles.openAt 0) ∧
     (0 ∈ redIndices wCandles ↔ wCandles.closeAt 0 < wCandles.openAt 0) ∧
     List.Pairwise (fun a b => a < b) (greenIndices wCandles) ∧
     List.Pairwise (fun a b => a < b) (redIndices wCandles) ∧
     drawCandlesData wCandles =
       (greenIndices wCandles).map (fun j => DataLine.row j
         [wCandles.openAt j, wCandles.highAt j, wCandles.lowAt j, wCandles.closeAt j])
         ++ [DataLine.sentinel]
         ++ (redIndices wCandles).map (fun j => DataLine.row j
           [wCandles.openAt j, wCandles.highAt j, wCandles.lowAt j, wCandles.closeAt j])
         ++ [DataLine.sentinel] ∧
     drawVolumesData wCandles =
       (greenIndices wCandles).map (fun j => DataLine.row j [wCandles.volumeAt j])
         ++ [DataLine.sentinel]
         ++ (redIndices wCandles).map (fun j => DataLine.row j [wCandles.volumeAt j])
         ++ [DataLine.sentinel]) :=
  ⟨by decide, draw_blocks_partition wCandles 0 (by decide)⟩

/-- Witness for C6 at three panes. -/
theorem render_pane_ratios_witness :
    1 ≤ 3 ∧
    (renderRatios 3 =
      3 / (((3 : Nat) : Rat) + 2) :: List.replicate (3 - 1) (1 / (((3 : Nat) : Rat) + 2)) ∧
    (renderRatios 3).sum = 1) :=
  ⟨by norm_num, render_pane_ratios 3 (by norm_num)⟩

end Tapp
